import Mathlib

/-!
Verification development for generate_ics.py, an Excel-to-ICS calendar
generator.  The Python source is embedded shallowly: cells are modelled as
Option String (None or a string value), rows as a structure of cells,
machine-independent pure helpers (parse_date, parse_time, parse_datetime,
truthy, make_uid, the per-row event emission of main) become Lean functions.
Python functions that raise exceptions are modelled with Except: strptime
raises ValueError on a malformed non-empty input, and main installs no
handler, so a raised error aborts the whole run.

The source file ends abruptly inside the all-day branch of main (after the
line parsing the inclusive end date); the remaining emission code is
modelled from the specification and marked as such on the definitions
concerned.
-/

/-! ## String helpers (Python str.strip, str.lower, splitting, digits) -/

/-- Whitespace predicate used by Python str.strip (ASCII whitespace). -/
def pyWs (c : Char) : Bool :=
  c == ' ' || c == '\t' || c == '\n' || c == '\r' || c == Char.ofNat 11 || c == Char.ofNat 12

/-- Remove leading and trailing whitespace from a character list. -/
def trimChars (l : List Char) : List Char :=
  ((l.dropWhile pyWs).reverse.dropWhile pyWs).reverse

/-- Python str.strip(): remove surrounding whitespace. -/
def strip (s : String) : String := ⟨trimChars s.data⟩

/-- Python str.lower() (ASCII case folding suffices for the token sets used). -/
def lower (s : String) : String := ⟨s.data.map Char.toLower⟩

/-- Split a character list on a separator character, Python str.split(sep)
style: the empty list yields one empty field. -/
def splitCh (sep : Char) : List Char → List (List Char)
  | [] => [[]]
  | c :: rest =>
    let r := splitCh sep rest
    if c == sep then [] :: r
    else (c :: r.headD []) :: r.tail

/-- ASCII digit test. -/
def isDigitCh (c : Char) : Bool := 48 ≤ c.toNat && c.toNat ≤ 57

/-- Numeric value of a digit string. -/
def digitsVal (l : List Char) : Nat := l.foldl (fun a c => 10 * a + (c.toNat - 48)) 0

/-! ## Dates and times (datetime.strptime with formats %Y-%m-%d and %H:%M) -/

structure Date where
  year : Nat
  month : Nat
  day : Nat
deriving DecidableEq, Repr

structure Time where
  hour : Nat
  minute : Nat
deriving DecidableEq, Repr

structure DateTime where
  date : Date
  hour : Nat
  minute : Nat
deriving DecidableEq, Repr

/-- Gregorian leap-year rule, as validated by datetime. -/
def isLeap (y : Nat) : Bool := y % 4 == 0 && (y % 100 != 0 || y % 400 == 0)

/-- Days in a month, as validated by the datetime constructor. -/
def daysInMonth (y m : Nat) : Nat :=
  if m == 2 then (if isLeap y then 29 else 28)
  else if m == 4 || m == 6 || m == 9 || m == 11 then 30
  else 31

/-- datetime.strptime(s, "%Y-%m-%d") as a total function: some on success,
none where Python raises ValueError.  Python accepts exactly four year
digits, one or two month digits (value 1..12) and one or two day digits,
then the datetime constructor validates the day against the month. -/
def strptimeDate (s : String) : Option Date :=
  match splitCh (Char.ofNat 45) s.data with
  | [ys, ms, ds] =>
    if (ys.length == 4 && ys.all isDigitCh)
        && ((ms.length == 1 || ms.length == 2) && ms.all isDigitCh)
        && ((ds.length == 1 || ds.length == 2) && ds.all isDigitCh) then
      let y := digitsVal ys
      let m := digitsVal ms
      let d := digitsVal ds
      if 1 ≤ y ∧ 1 ≤ m ∧ m ≤ 12 ∧ 1 ≤ d ∧ d ≤ daysInMonth y m then some ⟨y, m, d⟩ else none
    else none
  | _ => none

/-- datetime.strptime(s, "%H:%M") as a total function: one or two digits
for the hour (0..23) and for the minute (0..59). -/
def strptimeTime (s : String) : Option Time :=
  match splitCh (Char.ofNat 58) s.data with
  | [hs, ms] =>
    if ((hs.length == 1 || hs.length == 2) && hs.all isDigitCh)
        && ((ms.length == 1 || ms.length == 2) && ms.all isDigitCh) then
      let h := digitsVal hs
      let m := digitsVal ms
      if h ≤ 23 ∧ m ≤ 59 then some ⟨h, m⟩ else none
    else none
  | _ => none

/-- parse_date from the source: returns None on a falsy input, otherwise
strptime of the stripped string; strptime raises (modelled as .error) when
the non-empty input does not match %Y-%m-%d. -/
def parse_date (s : String) : Except Unit (Option Date) :=
  if s == "" then .ok none
  else match strptimeDate (strip s) with
    | some d => .ok (some d)
    | none => .error ()

/-- parse_time from the source: returns None on a falsy input, otherwise
strptime of the stripped string; raises (modelled as .error) when the
non-empty input does not match %H:%M. -/
def parse_time (s : String) : Except Unit (Option Time) :=
  if s == "" then .ok none
  else match strptimeTime (strip s) with
    | some t => .ok (some t)
    | none => .error ()

/-- parse_datetime from the source: combine a date string and a time string
into a naive timestamp; midnight when the time string is empty.  The branch
where parse_time yields None is unreachable (the time string is non-empty
there) and Python would fail on the attribute access, modelled as .error. -/
def parse_datetime (date_str time_str : String) : Except Unit (Option DateTime) :=
  match parse_date date_str with
  | .error e => .error e
  | .ok none => .ok none
  | .ok (some d) =>
    if time_str == "" then .ok (some ⟨d, 0, 0⟩)
    else match parse_time time_str with
      | .error e => .error e
      | .ok none => .error ()
      | .ok (some t) => .ok (some ⟨d, t.hour, t.minute⟩)

/-! ## Formatting (strftime) -/

/-- Zero-padded decimal rendering, width w. -/
def pad (w n : Nat) : List Char :=
  let ds := Nat.toDigits 10 n
  List.replicate (w - ds.length) (Char.ofNat 48) ++ ds

/-- fmt_date from the source: strftime("%Y%m%d"). -/
def fmt_date (d : Date) : String := ⟨pad 4 d.year ++ pad 2 d.month ++ pad 2 d.day⟩

/-- fmt_local from the source: strftime("%Y%m%dT%H%M%S"); the second
component of every constructed datetime is zero. -/
def fmt_local (dt : DateTime) : String :=
  ⟨pad 4 dt.date.year ++ pad 2 dt.date.month ++ pad 2 dt.date.day
    ++ [Char.ofNat 84] ++ pad 2 dt.hour ++ pad 2 dt.minute ++ pad 2 0⟩

/-- timedelta(days=1) added to a date. -/
def nextDay (d : Date) : Date :=
  if d.day < daysInMonth d.year d.month then ⟨d.year, d.month, d.day + 1⟩
  else if d.month < 12 then ⟨d.year, d.month + 1, 1⟩
  else ⟨d.year + 1, 1, 1⟩

/-! ## truthy and make_uid -/

/-- truthy from the source: false on None, otherwise membership of the
stripped lowercased value in the fixed token set. -/
def truthy (val : Option String) : Bool :=
  match val with
  | none => false
  | some v => ["true", "yes", "y", "1", "transparent", "free"].contains (lower (strip v))

/-- UTF-8 encoding of one character. -/
def utf8Char (c : Char) : List Nat :=
  let n := c.toNat
  if n < 128 then [n]
  else if n < 2048 then [192 + n / 64, 128 + n % 64]
  else if n < 65536 then [224 + n / 4096, 128 + n / 64 % 64, 128 + n % 64]
  else [240 + n / 262144, 128 + n / 4096 % 64, 128 + n / 64 % 64, 128 + n % 64]

/-- str.encode("utf-8") as a byte list. -/
def utf8Str (s : String) : List Nat := (s.data.map utf8Char).flatten

/-- Reduce modulo 2 to the 32. -/
def w32 (n : Nat) : Nat := n % 4294967296

/-- 32-bit left rotation (input below 2 to the 32). -/
def rotl (k x : Nat) : Nat := (x * 2 ^ k) % 4294967296 + x / 2 ^ (32 - k)

/-- 32-bit complement. -/
def not32 (x : Nat) : Nat := 4294967295 - x

/-- Big-endian 8-byte rendering of a number. -/
def be64 (n : Nat) : List Nat := (List.range 8).map (fun i => n / 2 ^ (8 * (7 - i)) % 256)

/-- SHA-1 message padding. -/
def sha1pad (msg : List Nat) : List Nat :=
  msg ++ [128] ++ List.replicate ((119 - msg.length % 64) % 64) 0 ++ be64 (8 * msg.length)

/-- Split a byte list into 64-byte chunks. -/
def chunks64 (bs : List Nat) : List (List Nat) :=
  if h : bs = [] then []
  else bs.take 64 :: chunks64 (bs.drop 64)
termination_by bs.length
decreasing_by
  simp only [List.length_drop]
  have : 0 < bs.length := List.length_pos.mpr h
  omega

/-- Group bytes into big-endian 32-bit words. -/
def bytesToWords : List Nat → List Nat
  | b0 :: b1 :: b2 :: b3 :: rest =>
    (((b0 * 256 + b1) * 256 + b2) * 256 + b3) :: bytesToWords rest
  | _ => []

/-- SHA-1 message schedule: extend 16 words to 80. -/
def schedule (ws : List Nat) : Array Nat :=
  (List.range 64).foldl (fun a i =>
    a.push (rotl 1 (Nat.xor (Nat.xor (a.getD (i + 13) 0) (a.getD (i + 8) 0))
      (Nat.xor (a.getD (i + 2) 0) (a.getD i 0))))) ws.toArray

/-- SHA-1 round function. -/
def sha1F (i b c d : Nat) : Nat :=
  if i < 20 then Nat.lor (Nat.land b c) (Nat.land (not32 b) d)
  else if i < 40 then Nat.xor (Nat.xor b c) d
  else if i < 60 then Nat.lor (Nat.lor (Nat.land b c) (Nat.land b d)) (Nat.land c d)
  else Nat.xor (Nat.xor b c) d

/-- SHA-1 round constants. -/
def sha1K (i : Nat) : Nat :=
  if i < 20 then 1518500249 else if i < 40 then 1859775393
  else if i < 60 then 2400959708 else 3395469782

structure H5 where
  a : Nat
  b : Nat
  c : Nat
  d : Nat
  e : Nat
deriving DecidableEq, Repr

/-- SHA-1 compression of one 64-byte chunk. -/
def sha1Chunk (h : H5) (chunk : List Nat) : H5 :=
  let w := schedule (bytesToWords chunk)
  let s := (List.range 80).foldl (fun s i =>
    let temp := w32 (rotl 5 s.a + sha1F i s.b s.c s.d + s.e + sha1K i + w.getD i 0)
    ⟨temp, s.a, rotl 30 s.b, s.c, s.d⟩) h
  ⟨w32 (h.a + s.a), w32 (h.b + s.b), w32 (h.c + s.c), w32 (h.d + s.d), w32 (h.e + s.e)⟩

/-- SHA-1 initial state. -/
def sha1Init : H5 := ⟨1732584193, 4023233417, 2562383102, 271733878, 3285377520⟩

/-- Lowercase hexadecimal digit. -/
def hexDigitCh (n : Nat) : Char := if n < 10 then Char.ofNat (48 + n) else Char.ofNat (87 + n)

/-- Eight lowercase hex digits of a 32-bit word. -/
def hex8 (n : Nat) : List Char := (List.range 8).map (fun i => hexDigitCh (n / 16 ^ (7 - i) % 16))

/-- hashlib.sha1(bytes).hexdigest(): 40 lowercase hex characters. -/
def sha1hex (msg : List Nat) : String :=
  let h := (chunks64 (sha1pad msg)).foldl sha1Chunk sha1Init
  ⟨hex8 h.a ++ hex8 h.b ++ hex8 h.c ++ hex8 h.d ++ hex8 h.e⟩

/-- make_uid from the source: first sixteen hex characters of the SHA-1
digest of the fields joined with a vertical bar, then the fixed domain
suffix. -/
def make_uid (fields : List String) : String :=
  ⟨(sha1hex (utf8Str (String.intercalate "|" fields))).data.take 16⟩ ++ "@youruni"

/-! ## Rows, field extraction and event emission (main) -/

/-- Configured default timezone. -/
def DEFAULT_TZ : String := "Australia/Sydney"

/-- A spreadsheet cell: absent (None) or a string value. -/
abbrev Cell := Option String

/-- Cell value as a string (empty for None). -/
def cellStr (c : Cell) : String :=
  match c with
  | none => ""
  | some s => s

/-- Python truthiness of a cell: None and the empty string are falsy. -/
def cellTruthy (c : Cell) : Bool :=
  match c with
  | none => false
  | some s => s != ""

/-- A data row: one cell per recognized column. -/
structure Row where
  uid : Cell
  course : Cell
  title : Cell
  cat : Cell
  sdate : Cell
  stime : Cell
  edate : Cell
  etime : Cell
  tz : Cell
  loc : Cell
  desc : Cell
  url : Cell
  transp : Cell
  rrule : Cell
  exdate : Cell
deriving DecidableEq, Repr

/-- Which recognized columns exist in the header row (a missing column has
index -1 in the source and resolves to false here). -/
structure Cols where
  uid : Bool
  course : Bool
  title : Bool
  cat : Bool
  sdate : Bool
  stime : Bool
  edate : Bool
  etime : Bool
  tz : Bool
  loc : Bool
  desc : Bool
  url : Bool
  transp : Bool
  rrule : Bool
  exdate : Bool
deriving DecidableEq, Repr

/-- Field extraction pattern of main: the stripped cell value when the
column exists and the cell is truthy, the empty string otherwise. -/
def extract (present : Bool) (cell : Cell) : String :=
  if present && cellTruthy cell then strip (cellStr cell) else ""

/-- Timezone resolution of main: same extraction pattern, but the fallback
is DEFAULT_TZ instead of the empty string. -/
def resolveTz (present : Bool) (cell : Cell) : String :=
  if present && cellTruthy cell then strip (cellStr cell) else DEFAULT_TZ

/-- The attribute set main computes for one row. -/
structure Record where
  uid : String
  course : String
  title : String
  cat : String
  sdate : String
  stime : String
  edate : String
  etime : String
  tz : String
  location : String
  desc : String
  url : String
  is_transparent : Bool
deriving DecidableEq, Repr

/-- The extraction block of main (source lines 138 to 153). -/
def extractRecord (cols : Cols) (r : Row) : Record :=
  ⟨extract cols.uid r.uid,
   extract cols.course r.course,
   extract cols.title r.title,
   extract cols.cat r.cat,
   extract cols.sdate r.sdate,
   extract cols.stime r.stime,
   extract cols.edate r.edate,
   extract cols.etime r.etime,
   resolveTz cols.tz r.tz,
   extract cols.loc r.loc,
   extract cols.desc r.desc,
   extract cols.url r.url,
   if cols.transp then truthy r.transp else false⟩

/-- All-day classification of main: both time fields empty. -/
def is_all_day (rec : Record) : Bool := rec.stime == "" && rec.etime == ""

/-- UID used for the event: the supplied one, or make_uid over the seven
base fields when it is empty (source lines 166 to 168). -/
def derivedUid (rec : Record) : String :=
  if rec.uid == "" then
    make_uid [rec.course, rec.title, rec.sdate, rec.edate, rec.stime, rec.etime, rec.location]
  else rec.uid

/-- Summary line value (source line 170).  The separator literal in the
source is the three characters U+00E2 U+20AC U+201D surrounded by spaces, a
mojibake rendering of an em dash. -/
def summaryOf (rec : Record) : String :=
  if rec.course == "" then rec.title else rec.course ++ (" \xE2€” " ++ rec.title)

/-- One optional property line, emitted only for a non-empty value. -/
def optLine (pre v : String) : List String := if v == "" then [] else [pre ++ v]

/-- Category values: course, category, location, the non-empty ones. -/
def catsOf (rec : Record) : List String :=
  (if rec.course == "" then [] else [rec.course])
    ++ (if rec.cat == "" then [] else [rec.cat])
    ++ (if rec.location == "" then [] else [rec.location])

/-- The CATEGORIES line, when any category value exists. -/
def catLine (rec : Record) : List String :=
  if catsOf rec == [] then [] else ["CATEGORIES:" ++ String.intercalate "," (catsOf rec)]

/-- The property lines every event carries before the date block (source
lines 172 to 193).  The description replacement in the source substitutes
the two-character backslash-n sequence with itself and is the identity. -/
def evLines (now : String) (rec : Record) : List String :=
  ["BEGIN:VEVENT", "UID:" ++ derivedUid rec, "DTSTAMP:" ++ now, "SUMMARY:" ++ summaryOf rec]
    ++ optLine "LOCATION:" rec.location
    ++ optLine "DESCRIPTION:" rec.desc
    ++ optLine "URL:" rec.url
    ++ catLine rec
    ++ ["TRANSP:" ++ (if rec.is_transparent then "TRANSPARENT" else "OPAQUE")]

/-- Modelled from the spec: the all-day DTSTART and DTEND lines.  The
source file is truncated inside the all-day branch, so the emission of the
date-only value pair follows the spec (sections 4.2, 4.3 and the round-trip
scenario of section 8): date-only values, exclusive end date. -/
def allDayTail (s e : Date) : List String :=
  ["DTSTART;VALUE=DATE:" ++ fmt_date s, "DTEND;VALUE=DATE:" ++ fmt_date e, "END:VEVENT"]

/-- Modelled from the spec: the timed DTSTART and DTEND lines, missing from
the truncated source; per the timed scenario of section 8 they carry a
TZID parameter with the record timezone and the compact local timestamp. -/
def timedTail (tz : String) (st en : DateTime) : List String :=
  ["DTSTART;TZID=" ++ (tz ++ (":" ++ fmt_local st)),
   "DTEND;TZID=" ++ (tz ++ (":" ++ fmt_local en)),
   "END:VEVENT"]

/-- Modelled from the spec: the date block and closing marker of one event.
Source lines 195 to 205 give the all-day branch up to parsing the inclusive
end date; the file is truncated there.  The remainder follows the spec
(section 4.2): all-day exclusive end = supplied inclusive end date plus one
day, or start date plus one day when no end date is given; timed start =
combine(start date, start time), timed end = combine(end date or start
date, end time or start time).  Parse failures raised by strptime
propagate as .error exactly as in the in-source lines. -/
def eventTail (rec : Record) : Except Unit (List String) :=
  if is_all_day rec then
    match parse_date rec.sdate with
    | .error e => .error e
    | .ok none => .ok ["END:VEVENT"]
    | .ok (some start_d) =>
      if rec.edate != "" then
        match parse_date rec.edate with
        | .error e => .error e
        | .ok none => .ok ["END:VEVENT"]
        | .ok (some end_incl) => .ok (allDayTail start_d (nextDay end_incl))
      else .ok (allDayTail start_d (nextDay start_d))
  else
    match parse_datetime rec.sdate rec.stime with
    | .error e => .error e
    | .ok none => .ok ["END:VEVENT"]
    | .ok (some st) =>
      match parse_datetime (if rec.edate == "" then rec.sdate else rec.edate)
          (if rec.etime == "" then rec.stime else rec.etime) with
      | .error e => .error e
      | .ok none => .ok ["END:VEVENT"]
      | .ok (some en) => .ok (timedTail rec.tz st en)

/-- The per-row body of main: drop the row when the title or the start date
is empty, otherwise emit the event lines followed by the date block. -/
def emitRecord (now : String) (rec : Record) : Except Unit (List String) :=
  if rec.title == "" then .ok []
  else if rec.sdate == "" then .ok []
  else match eventTail rec with
    | .error e => .error e
    | .ok tail => .ok (evLines now rec ++ tail)

/-- Is a cell None or the empty string (source line 135). -/
def cellEmpty (c : Cell) : Bool :=
  match c with
  | none => true
  | some s => s == ""

/-- An entirely empty row is skipped before extraction. -/
def allEmptyRow (r : Row) : Bool :=
  cellEmpty r.uid && cellEmpty r.course && cellEmpty r.title && cellEmpty r.cat
    && cellEmpty r.sdate && cellEmpty r.stime && cellEmpty r.edate && cellEmpty r.etime
    && cellEmpty r.tz && cellEmpty r.loc && cellEmpty r.desc && cellEmpty r.url
    && cellEmpty r.transp && cellEmpty r.rrule && cellEmpty r.exdate

/-- One loop iteration of main for one row. -/
def processRow (cols : Cols) (now : String) (r : Row) : Except Unit (List String) :=
  if allEmptyRow r then .ok [] else emitRecord now (extractRecord cols r)

/-- The row loop of main: events accumulate in row order; an uncaught parse
error aborts the whole run. -/
def runRows (cols : Cols) (now : String) : List Row → Except Unit (List String)
  | [] => .ok []
  | r :: rs =>
    match processRow cols now r with
    | .error e => .error e
    | .ok ls =>
      match runRows cols now rs with
      | .error e => .error e
      | .ok rest => .ok (ls ++ rest)

/-! ## Infrastructure: prefix reasoning on emitted lines -/

/-- Does p occur as a prefix of s (decidable, used to pick out property
lines such as DTSTAMP or TRANSP in the emitted output). -/
def hasPre (p s : String) : Bool := p.data.isPrefixOf s.data

/-- The date block of an event contributes no DTSTAMP line, no TRANSP line
and no BEGIN marker. -/
def benignTail (tl : List String) : Prop :=
  tl.filter (fun l => hasPre "DTSTAMP:" l) = []
    ∧ tl.filter (fun l => hasPre "TRANSP:" l) = []
    ∧ tl.count "BEGIN:VEVENT" = 0

/-! ## Concrete fixtures used by witnesses and counterexamples -/

/-- A header row containing every recognized column. -/
def colsAll : Cols := ⟨true, true, true, true, true, true, true, true, true, true, true, true, true, true, true⟩

/-- A row whose timezone cell holds a single space (whitespace-only). -/
def rowWsTz : Row := ⟨none, none, some "T", none, some "2025-03-10", none, none, none, some " ", none, none, none, none, none, none⟩

/-- A row with no timezone cell. -/
def rowNoTz : Row := ⟨none, none, some "T", none, some "2025-03-10", none, none, none, none, none, none, none, none, none, none⟩

/-- A row whose start date cell does not match the expected format. -/
def rowBadDate : Row := ⟨some "u1", none, some "X", none, some "2025/03/10", none, none, none, none, none, none, none, none, none, none⟩

/-- A row with a whitespace-only start time and an empty end time cell. -/
def rC4 : Row := ⟨none, none, some "T", none, some "2025-03-10", some "  ", none, some "", none, none, none, none, none, none, none⟩

/-- A row with a whitespace-only title. -/
def rC5 : Row := ⟨some "u1", none, some "   ", none, some "2025-03-10", none, none, none, none, none, none, none, none, none, none⟩

/-- A row whose TRANSPARENT cell holds TRUE. -/
def rC6 : Row := ⟨some "u1", none, some "T", none, some "2025-03-10", none, none, none, none, none, none, none, some "TRUE", none, none⟩

/-- The event block emitted for rC6. -/
def c6Lines : List String :=
  ["BEGIN:VEVENT", "UID:u1", "DTSTAMP:T0", "SUMMARY:T", "TRANSP:TRANSPARENT",
   "DTSTART;VALUE=DATE:20250310", "DTEND;VALUE=DATE:20250311", "END:VEVENT"]

/-- Two records, uid unset, agreeing on the seven identifier fields and
differing in category, timezone, description, url and transparency. -/
def recA : Record := ⟨"", "CS101", "Lecture", "", "2025-03-10", "09:00", "", "10:30", "Australia/Sydney", "Hall A", "first description", "", false⟩

/-- Companion record to recA, see there. -/
def recB : Record := ⟨"", "CS101", "Lecture", "catB", "2025-03-10", "09:00", "", "10:30", "UTC", "Hall A", "other description", "urlB", true⟩

/-- An all-day record with an explicit inclusive end date. -/
def recC1 : Record := ⟨"u1", "", "Camp", "", "2025-03-10", "", "2025-03-12", "", "Australia/Sydney", "", "", "", false⟩

/-- The timed scenario record of the spec (section 8). -/
def recCS : Record := ⟨"u1", "CS101", "Lecture", "", "2025-03-10", "09:00", "", "10:30", "Australia/Sydney", "", "", "", false⟩

/-- The event block emitted for recCS. -/
def csLines : List String :=
  ["BEGIN:VEVENT", "UID:u1", "DTSTAMP:T0", "SUMMARY:CS101 \xE2€” Lecture", "CATEGORIES:CS101",
   "TRANSP:OPAQUE", "DTSTART;TZID=Australia/Sydney:20250310T090000",
   "DTEND;TZID=Australia/Sydney:20250310T103000", "END:VEVENT"]

/-- Two single-day rows for a two-event run. -/
def rTen1 : Row := ⟨some "u1", none, some "A", none, some "2025-03-10", none, none, none, none, none, none, none, none, none, none⟩

/-- Second row of the two-event run. -/
def rTen2 : Row := ⟨some "u2", none, some "B", none, some "2025-04-01", none, none, none, none, none, none, none, none, none, none⟩

/-- The output of the two-event run over rTen1 and rTen2. -/
def tenOut : List String :=
  ["BEGIN:VEVENT", "UID:u1", "DTSTAMP:T0", "SUMMARY:A", "TRANSP:OPAQUE",
   "DTSTART;VALUE=DATE:20250310", "DTEND;VALUE=DATE:20250311", "END:VEVENT",
   "BEGIN:VEVENT", "UID:u2", "DTSTAMP:T0", "SUMMARY:B", "TRANSP:OPAQUE",
   "DTSTART;VALUE=DATE:20250401", "DTEND;VALUE=DATE:20250402", "END:VEVENT"]

theorem hasPre_self_append (p t : String) : hasPre p (p ++ t) = true := by
  unfold hasPre
  rw [String.data_append, List.isPrefixOf_iff_prefix]
  exact List.prefix_append p.data t.data

theorem hasPre_append_ne (p q t : String) (h1 : ¬ p.data <+: q.data)
    (h2 : ¬ q.data <+: p.data) : hasPre p (q ++ t) = false := by
  unfold hasPre
  rw [String.data_append, Bool.eq_false_iff]
  intro hc
  rw [ List.isPrefixOf_iff_prefix] at hc
  rcases Nat.le_total p.data.length q.data.length with hle | hle
  · exact h1 ( List.prefix_of_prefix_length_le hc ( List.prefix_append q.data t.data) hle)
  · exact h2 ( List.prefix_of_prefix_length_le ( List.prefix_append q.data t.data) hc hle)

theorem append_ne_of_not_pre (q t s : String) (h : ¬ q.data <+: s.data) : q ++ t ≠ s := by
  intro he
  apply h
  rw [← he, String.data_append]
  exact List.prefix_append q.data t.data

theorem beq_append_lit (q t s : String) (h : ¬ q.data <+: s.data) : (q ++ t == s) = false := by
  rw [beq_eq_false_iff_ne]
  exact append_ne_of_not_pre q t s h

theorem filter_ite_singleton (c : Prop) [Decidable c] (q x p : String)
    (h : hasPre p (q ++ x) = false) :
    (if c then ([] : List String) else [q ++ x]).filter (fun l => hasPre p l) = [] := by
  split
  · rfl
  · simp [List.filter_cons, h]

theorem count_ite_singleton (c : Prop) [Decidable c] (q x s : String)
    (h : ¬ q.data <+: s.data) :
    (if c then ([] : List String) else [q ++ x]).count s = 0 := by
  split
  · rfl
  · simp [List.count_cons, beq_append_lit q x s h]

theorem filter_optLine (p pre v : String) (h : hasPre p (pre ++ v) = false) :
    (optLine pre v).filter (fun l => hasPre p l) = [] :=
  filter_ite_singleton _ pre v p h

theorem filter_catLine (p : String) (rec : Record)
    (h : hasPre p ("CATEGORIES:" ++ String.intercalate "," (catsOf rec)) = false) :
    (catLine rec).filter (fun l => hasPre p l) = [] :=
  filter_ite_singleton _ _ _ p h

theorem count_optLine (pre v s : String) (h : ¬ pre.data <+: s.data) :
    (optLine pre v).count s = 0 :=
  count_ite_singleton _ pre v s h

theorem count_catLine (s : String) (rec : Record) (h : ¬ ("CATEGORIES:").data <+: s.data) :
    (catLine rec).count s = 0 :=
  count_ite_singleton _ _ _ s h

theorem evLines_filter_dtstamp (now : String) (rec : Record) :
    (evLines now rec).filter (fun l => hasPre "DTSTAMP:" l) = ["DTSTAMP:" ++ now] := by
  have h1 : hasPre "DTSTAMP:" "BEGIN:VEVENT" = false := by decide
  have h2 : ∀ t, hasPre "DTSTAMP:" ("UID:" ++ t) = false :=
    fun t => hasPre_append_ne _ _ t (by decide) (by decide)
  have h3 : ∀ t, hasPre "DTSTAMP:" ("DTSTAMP:" ++ t) = true :=
    fun t => hasPre_self_append _ t
  have h4 : ∀ t, hasPre "DTSTAMP:" ("SUMMARY:" ++ t) = false :=
    fun t => hasPre_append_ne _ _ t (by decide) (by decide)
  have h5 : ∀ t, hasPre "DTSTAMP:" ("LOCATION:" ++ t) = false :=
    fun t => hasPre_append_ne _ _ t (by decide) (by decide)
  have h6 : ∀ t, hasPre "DTSTAMP:" ("DESCRIPTION:" ++ t) = false :=
    fun t => hasPre_append_ne _ _ t (by decide) (by decide)
  have h7 : ∀ t, hasPre "DTSTAMP:" ("URL:" ++ t) = false :=
    fun t => hasPre_append_ne _ _ t (by decide) (by decide)
  have h8 : ∀ t, hasPre "DTSTAMP:" ("TRANSP:" ++ t) = false :=
    fun t => hasPre_append_ne _ _ t (by decide) (by decide)
  unfold evLines
  simp only [List.filter_append]
  rw [filter_optLine _ _ _ (h5 _), filter_optLine _ _ _ (h6 _), filter_optLine _ _ _ (h7 _),
    filter_catLine _ _ (hasPre_append_ne _ _ _ (by decide) (by decide))]
  simp [List.filter_cons, h1, h2, h3, h4, h8]

theorem evLines_filter_transp (now : String) (rec : Record) :
    (evLines now rec).filter (fun l => hasPre "TRANSP:" l)
      = ["TRANSP:" ++ (if rec.is_transparent then "TRANSPARENT" else "OPAQUE")] := by
  have h1 : hasPre "TRANSP:" "BEGIN:VEVENT" = false := by decide
  have h2 : ∀ t, hasPre "TRANSP:" ("UID:" ++ t) = false :=
    fun t => hasPre_append_ne _ _ t (by decide) (by decide)
  have h3 : ∀ t, hasPre "TRANSP:" ("DTSTAMP:" ++ t) = false :=
    fun t => hasPre_append_ne _ _ t (by decide) (by decide)
  have h4 : ∀ t, hasPre "TRANSP:" ("SUMMARY:" ++ t) = false :=
    fun t => hasPre_append_ne _ _ t (by decide) (by decide)
  have h5 : ∀ t, hasPre "TRANSP:" ("LOCATION:" ++ t) = false :=
    fun t => hasPre_append_ne _ _ t (by decide) (by decide)
  have h6 : ∀ t, hasPre "TRANSP:" ("DESCRIPTION:" ++ t) = false :=
    fun t => hasPre_append_ne _ _ t (by decide) (by decide)
  have h7 : ∀ t, hasPre "TRANSP:" ("URL:" ++ t) = false :=
    fun t => hasPre_append_ne _ _ t (by decide) (by decide)
  have h8 : ∀ t, hasPre "TRANSP:" ("TRANSP:" ++ t) = true :=
    fun t => hasPre_self_append _ t
  unfold evLines
  simp only [List.filter_append]
  rw [filter_optLine _ _ _ (h5 _), filter_optLine _ _ _ (h6 _), filter_optLine _ _ _ (h7 _),
    filter_catLine _ _ (hasPre_append_ne _ _ _ (by decide) (by decide))]
  simp [List.filter_cons, h1, h2, h3, h4, h8]

theorem evLines_count_begin (now : String) (rec : Record) :
    (evLines now rec).count "BEGIN:VEVENT" = 1 := by
  have h2 : ∀ t, ("UID:" ++ t == "BEGIN:VEVENT") = false :=
    fun t => beq_append_lit _ t _ (by decide)
  have h3 : ∀ t, ("DTSTAMP:" ++ t == "BEGIN:VEVENT") = false :=
    fun t => beq_append_lit _ t _ (by decide)
  have h4 : ∀ t, ("SUMMARY:" ++ t == "BEGIN:VEVENT") = false :=
    fun t => beq_append_lit _ t _ (by decide)
  have h8 : ∀ t, ("TRANSP:" ++ t == "BEGIN:VEVENT") = false :=
    fun t => beq_append_lit _ t _ (by decide)
  unfold evLines
  simp only [List.count_append]
  rw [count_optLine _ _ _ (by decide), count_optLine _ _ _ (by decide),
    count_optLine _ _ _ (by decide), count_catLine _ _ (by decide)]
  simp [List.count_cons, h2, h3, h4, h8]

theorem benign_end : benignTail ["END:VEVENT"] := by
  refine ⟨?_, ?_, ?_⟩ <;> decide

theorem benign_allDayTail (a b : Date) : benignTail (allDayTail a b) := by
  unfold benignTail allDayTail
  refine ⟨?_, ?_, ?_⟩
  · simp [List.filter_cons,
      hasPre_append_ne "DTSTAMP:" "DTSTART;VALUE=DATE:" _ (by decide) (by decide),
      hasPre_append_ne "DTSTAMP:" "DTEND;VALUE=DATE:" _ (by decide) (by decide),
      show hasPre "DTSTAMP:" "END:VEVENT" = false from by decide]
  · simp [List.filter_cons,
      hasPre_append_ne "TRANSP:" "DTSTART;VALUE=DATE:" _ (by decide) (by decide),
      hasPre_append_ne "TRANSP:" "DTEND;VALUE=DATE:" _ (by decide) (by decide),
      show hasPre "TRANSP:" "END:VEVENT" = false from by decide]
  · simp [List.count_cons,
      beq_append_lit "DTSTART;VALUE=DATE:" _ "BEGIN:VEVENT" (by decide),
      beq_append_lit "DTEND;VALUE=DATE:" _ "BEGIN:VEVENT" (by decide)]

theorem benign_timedTail (tz : String) (a b : DateTime) : benignTail (timedTail tz a b) := by
  unfold benignTail timedTail
  refine ⟨?_, ?_, ?_⟩
  · simp [List.filter_cons,
      hasPre_append_ne "DTSTAMP:" "DTSTART;TZID=" _ (by decide) (by decide),
      hasPre_append_ne "DTSTAMP:" "DTEND;TZID=" _ (by decide) (by decide),
      show hasPre "DTSTAMP:" "END:VEVENT" = false from by decide]
  · simp [List.filter_cons,
      hasPre_append_ne "TRANSP:" "DTSTART;TZID=" _ (by decide) (by decide),
      hasPre_append_ne "TRANSP:" "DTEND;TZID=" _ (by decide) (by decide),
      show hasPre "TRANSP:" "END:VEVENT" = false from by decide]
  · simp [List.count_cons,
      beq_append_lit "DTSTART;TZID=" _ "BEGIN:VEVENT" (by decide),
      beq_append_lit "DTEND;TZID=" _ "BEGIN:VEVENT" (by decide)]

theorem eventTail_benign (rec : Record) (tl : List String) (h : eventTail rec = .ok tl) :
    benignTail tl := by
  unfold eventTail at h
  split at h
  · split at h
    · exact Except.noConfusion h
    · cases h; exact benign_end
    · split at h
      · split at h
        · exact Except.noConfusion h
        · cases h; exact benign_end
        · cases h; exact benign_allDayTail _ _
      · cases h; exact benign_allDayTail _ _
  · split at h
    · exact Except.noConfusion h
    · cases h; exact benign_end
    · split at h
      · exact Except.noConfusion h
      · cases h; exact benign_end
      · cases h; exact benign_timedTail _ _ _

theorem emitRecord_shape (now : String) (rec : Record) (ls : List String)
    (h : emitRecord now rec = .ok ls) :
    ls = [] ∨ ∃ tl, eventTail rec = .ok tl ∧ benignTail tl ∧ ls = evLines now rec ++ tl := by
  unfold emitRecord at h
  split at h
  · cases h; exact Or.inl rfl
  · split at h
    · cases h; exact Or.inl rfl
    · split at h
      · exact Except.noConfusion h
      · rename_i tl heq
        cases h
        exact Or.inr ⟨tl, heq, eventTail_benign rec tl heq, rfl⟩

theorem processRow_shape (cols : Cols) (now : String) (r : Row) (ls : List String)
    (h : processRow cols now r = .ok ls) :
    ls = [] ∨ ∃ tl, eventTail (extractRecord cols r) = .ok tl ∧ benignTail tl
      ∧ ls = evLines now (extractRecord cols r) ++ tl := by
  unfold processRow at h
  split at h
  · cases h; exact Or.inl rfl
  · exact emitRecord_shape now (extractRecord cols r) ls h

theorem runRows_nil (cols : Cols) (now : String) : runRows cols now [] = .ok [] := rfl

theorem runRows_cons (cols : Cols) (now : String) (r : Row) (rs : List Row) :
    runRows cols now (r :: rs)
      = (match processRow cols now r with
         | .error e => .error e
         | .ok ls =>
           match runRows cols now rs with
           | .error e => .error e
           | .ok rest => .ok (ls ++ rest)) := rfl

theorem processRow_dtstamp (cols : Cols) (now : String) (r : Row) (ls : List String)
    (h : processRow cols now r = .ok ls) :
    ls.filter (fun l => hasPre "DTSTAMP:" l)
      = List.replicate (ls.count "BEGIN:VEVENT") ("DTSTAMP:" ++ now) := by
  rcases processRow_shape cols now r ls h with rfl | ⟨tl, _, ⟨hb1, _, hb3⟩, rfl⟩
  · rfl
  · rw [List.filter_append, List.count_append, evLines_filter_dtstamp, evLines_count_begin,
      hb1, hb3]
    rfl

/-- C10: the generation timestamp is a single value fixed before the row
loop, and every emitted event block carries exactly that DTSTAMP line: the
DTSTAMP lines of a run are one identical line per BEGIN marker. -/
theorem dtstamp_uniform (cols : Cols) (now : String) (rows : List Row) (out : List String)
    (h : runRows cols now rows = .ok out) :
    out.filter (fun l => hasPre "DTSTAMP:" l)
      = List.replicate (out.count "BEGIN:VEVENT") ("DTSTAMP:" ++ now) := by
  induction rows generalizing out with
  | nil =>
    rw [runRows_nil] at h
    cases h
    rfl
  | cons r rs ih =>
    rw [runRows_cons] at h
    split at h
    · exact Except.noConfusion h
    · rename_i ls hls
      split at h
      · exact Except.noConfusion h
      · rename_i rest hrest
        cases h
        rw [List.filter_append, List.count_append, processRow_dtstamp cols now r ls hls,
          ih rest hrest, List.replicate_add]

theorem is_transp_char (cols : Cols) (r : Row) :
    (extractRecord cols r).is_transparent
      = (cols.transp
          && ["true", "yes", "y", "1", "transparent", "free"].contains (lower (strip (cellStr r.transp)))) := by
  cases hct : cols.transp
  · simp [extractRecord, hct]
  · cases hr : r.transp with
    | none =>
      have hc : (["true", "yes", "y", "1", "transparent", "free"].contains (lower (strip ""))) = false := by
        decide
      simp only [extractRecord, hct, hr, truthy, cellStr, Bool.true_and]
      exact hc.symm
    | some v => simp [extractRecord, hct, hr, truthy, cellStr]

/-- C6: every emitted event carries exactly one TRANSP line; its value is
the literal TRANSP:TRANSPARENT exactly when the TRANSPARENT column exists
and the stripped, lowercased cell value is one of the six truthy tokens,
and the literal TRANSP:OPAQUE in every other case (including an absent
column or an empty cell). -/
theorem transp_line (cols : Cols) (r : Row) (now : String) (ls : List String)
    (h : processRow cols now r = .ok ls) (hne : ls ≠ []) :
    ls.filter (fun l => hasPre "TRANSP:" l)
      = [if cols.transp
            && ["true", "yes", "y", "1", "transparent", "free"].contains (lower (strip (cellStr r.transp)))
         then "TRANSP:TRANSPARENT" else "TRANSP:OPAQUE"] := by
  rcases processRow_shape cols now r ls h with rfl | ⟨tl, _, ⟨_, hb2, _⟩, rfl⟩
  · exact absurd rfl hne
  · rw [List.filter_append, evLines_filter_transp, hb2, List.append_nil, ← is_transp_char]
    cases hb : (extractRecord cols r).is_transparent <;> simp [hb]

theorem extract_empty (present : Bool) (cell : Cell) (h : strip (cellStr cell) = "") :
    extract present cell = "" := by
  unfold extract
  split
  · exact h
  · rfl

theorem extract_empty_iff (cell : Cell) : (extract true cell = "") ↔ strip (cellStr cell) = "" := by
  cases cell with
  | none => decide
  | some s =>
    by_cases hs : s = ""
    · subst hs; decide
    · have ht : cellTruthy (some s) = true := by simp [cellTruthy, hs]
      simp [extract, ht, cellStr]

/-- C4: a processed row is classified all-day exactly when both the start
time cell and the end time cell are empty after stripping; any other
combination yields a timed event. -/
theorem allday_iff (cols : Cols) (r : Row) (h1 : cols.stime = true) (h2 : cols.etime = true) :
    (is_all_day (extractRecord cols r) = true)
      ↔ (strip (cellStr r.stime) = "" ∧ strip (cellStr r.etime) = "") := by
  have e1 : (extractRecord cols r).stime = extract cols.stime r.stime := rfl
  have e2 : (extractRecord cols r).etime = extract cols.etime r.etime := rfl
  unfold is_all_day
  rw [e1, e2, h1, h2, Bool.and_eq_true, beq_iff_eq, beq_iff_eq]
  exact and_congr (extract_empty_iff r.stime) (extract_empty_iff r.etime)

theorem allday_iff_witness :
    colsAll.stime = true ∧ colsAll.etime = true
      ∧ ((is_all_day (extractRecord colsAll rC4) = true)
          ↔ (strip (cellStr rC4.stime) = "" ∧ strip (cellStr rC4.etime) = "")) :=
  ⟨rfl, rfl, allday_iff colsAll rC4 rfl rfl⟩

/-- C5: a row whose title or start date is empty after stripping produces
no event lines at all; the loop iteration yields the empty output. -/
theorem drop_row (cols : Cols) (now : String) (r : Row)
    (h : strip (cellStr r.title) = "" ∨ strip (cellStr r.sdate) = "") :
    processRow cols now r = .ok [] := by
  unfold processRow
  split
  · rfl
  · rcases h with h | h
    · have ht : (extractRecord cols r).title = "" := extract_empty cols.title r.title h
      simp [emitRecord, ht]
    · have hs : (extractRecord cols r).sdate = "" := extract_empty cols.sdate r.sdate h
      by_cases hti : (extractRecord cols r).title = ""
      · simp [emitRecord, hti]
      · simp [emitRecord, hti, hs]

theorem drop_row_witness :
    (strip (cellStr rC5.title) = "" ∨ strip (cellStr rC5.sdate) = "")
      ∧ processRow colsAll "T0" rC5 = .ok [] :=
  ⟨Or.inl (by decide), drop_row colsAll "T0" rC5 (Or.inl (by decide))⟩

/-- C8 counterexample: a whitespace-only timezone cell is truthy, so main
strips it to the empty string instead of applying the configured default;
the claim that every cell empty after trimming resolves to the default
fails on this row. -/
theorem tz_ws_cex :
    (extractRecord colsAll rowWsTz).tz = "" ∧ ¬ (extractRecord colsAll rowWsTz).tz = DEFAULT_TZ := by
  constructor
  · decide
  · decide

/-- C8 amended: the resolved timezone equals the configured default
exactly in the cases the code treats as unset, namely an absent column, an
absent cell, or a cell holding the empty string; a whitespace-only cell is
not covered and resolves to the empty string instead. -/
theorem tz_default (cols : Cols) (r : Row)
    (h : cols.tz = false ∨ r.tz = none ∨ r.tz = some "") :
    (extractRecord cols r).tz = DEFAULT_TZ := by
  have e : (extractRecord cols r).tz = resolveTz cols.tz r.tz := rfl
  rw [e]
  unfold resolveTz
  rcases h with h | h | h <;> simp [h, cellTruthy]

theorem tz_default_witness :
    (colsAll.tz = false ∨ rowNoTz.tz = none ∨ rowNoTz.tz = some "")
      ∧ (extractRecord colsAll rowNoTz).tz = DEFAULT_TZ :=
  ⟨Or.inr (Or.inl rfl), tz_default colsAll rowNoTz (Or.inr (Or.inl rfl))⟩

/-- C3: the derived identifier is a function of the seven identifier
fields alone: two records with no supplied uid agreeing on course, title,
start date, end date, start time, end time and location receive the
identical derived identifier, whatever their other fields. -/
theorem uid_deterministic (r1 r2 : Record) (h0 : r1.uid = "") (h0b : r2.uid = "")
    (hc : r1.course = r2.course) (ht : r1.title = r2.title) (hs : r1.sdate = r2.sdate)
    (he : r1.edate = r2.edate) (hst : r1.stime = r2.stime) (het : r1.etime = r2.etime)
    (hl : r1.location = r2.location) :
    derivedUid r1 = derivedUid r2 := by
  unfold derivedUid
  rw [h0, h0b, hc, ht, hs, he, hst, het, hl]

theorem uid_deterministic_witness :
    recA.uid = "" ∧ recB.uid = "" ∧ recA.course = recB.course ∧ recA.title = recB.title
      ∧ recA.sdate = recB.sdate ∧ recA.edate = recB.edate ∧ recA.stime = recB.stime
      ∧ recA.etime = recB.etime ∧ recA.location = recB.location
      ∧ derivedUid recA = derivedUid recB :=
  ⟨rfl, rfl, rfl, rfl, rfl, rfl, rfl, rfl, rfl,
    uid_deterministic recA recB rfl rfl rfl rfl rfl rfl rfl rfl rfl⟩

/-- C9 counterexample: identifier derivation is not injective.  These two
field tuples differ in the course and title fields yet join to the same
string, because the fields contain the join separator, so make_uid maps
them to the identical identifier. -/
theorem uid_collision :
    (["a|b", "c", "d", "", "", "", ""] : List String) ≠ ["a", "b|c", "d", "", "", "", ""]
      ∧ make_uid ["a|b", "c", "d", "", "", "", ""] = make_uid ["a", "b|c", "d", "", "", "", ""] := by
  constructor
  · decide
  · have h : String.intercalate "|" ["a|b", "c", "d", "", "", "", ""]
        = String.intercalate "|" ["a", "b|c", "d", "", "", "", ""] := by decide
    unfold make_uid
    rw [h]

/-- C9 amended: identifier derivation factors through the joined field
string: any two field tuples whose vertical-bar joins coincide receive the
identical identifier, so tuples differing in a field can collide whenever
a field contains the separator character. -/
theorem uid_factors_join (f1 f2 : List String)
    (h : String.intercalate "|" f1 = String.intercalate "|" f2) :
    make_uid f1 = make_uid f2 := by
  unfold make_uid
  rw [h]

theorem uid_factors_join_witness :
    String.intercalate "|" ["x|", "", "d", "", "", "", ""]
        = String.intercalate "|" ["x", "|", "d", "", "", "", ""]
      ∧ make_uid ["x|", "", "d", "", "", "", ""] = make_uid ["x", "|", "d", "", "", "", ""] :=
  ⟨by decide, uid_factors_join _ _ (by decide)⟩

/-- C1: for a valid all-day record (non-empty title and start date, empty
start and end time, parseable dates) the emitted block ends with the
date-only DTSTART and DTEND lines; with no end date the exclusive end is
the start date plus one day, and with an inclusive end date E it is E plus
one day. -/
theorem allday_dates (now : String) (rec : Record) (S : Date)
    (ht : rec.title ≠ "") (hsd : rec.sdate ≠ "") (hst : rec.stime = "") (het : rec.etime = "")
    (hp : parse_date rec.sdate = .ok (some S)) :
    (rec.edate = "" → emitRecord now rec = .ok (evLines now rec ++ allDayTail S (nextDay S)))
      ∧ (∀ E : Date, rec.edate ≠ "" → parse_date rec.edate = .ok (some E) →
          emitRecord now rec = .ok (evLines now rec ++ allDayTail S (nextDay E))) := by
  have hall : is_all_day rec = true := by simp [is_all_day, hst, het]
  have hb1 : (rec.title == "") = false := by rw [beq_eq_false_iff_ne]; exact ht
  have hb2 : (rec.sdate == "") = false := by rw [beq_eq_false_iff_ne]; exact hsd
  constructor
  · intro he
    have htail : eventTail rec = .ok (allDayTail S (nextDay S)) := by
      simp [eventTail, hall, hp, he]
    simp [emitRecord, hb1, hb2, htail]
  · intro E hne hpe
    have hbne : (rec.edate != "") = true := by simp [hne]
    have htail : eventTail rec = .ok (allDayTail S (nextDay E)) := by
      simp [eventTail, hall, hp, hbne, hpe]
    simp [emitRecord, hb1, hb2, htail]

theorem allday_dates_witness :
    recC1.title ≠ "" ∧ recC1.sdate ≠ "" ∧ recC1.stime = "" ∧ recC1.etime = ""
      ∧ parse_date recC1.sdate = .ok (some ⟨2025, 3, 10⟩) ∧ recC1.edate ≠ ""
      ∧ parse_date recC1.edate = .ok (some ⟨2025, 3, 12⟩)
      ∧ emitRecord "N0" recC1
          = .ok (evLines "N0" recC1 ++ allDayTail ⟨2025, 3, 10⟩ (nextDay ⟨2025, 3, 12⟩)) :=
  ⟨by decide, by decide, rfl, rfl, rfl, by decide, rfl,
    (allday_dates "N0" recC1 ⟨2025, 3, 10⟩ (by decide) (by decide) rfl rfl rfl).2
      ⟨2025, 3, 12⟩ (by decide) rfl⟩

/-- C7 counterexample: the timed scenario row with course CS101 and title
Lecture.  The SUMMARY line the code emits joins the course and title with
the three-character mojibake sequence U+00E2 U+20AC U+201D, not with a
plain dash, so the line SUMMARY:CS101 - Lecture claimed by the spec never
appears in the block. -/
theorem summary_cex :
    emitRecord "T0" recCS = .ok csLines
      ∧ csLines.contains "SUMMARY:CS101 - Lecture" = false := by
  constructor
  · rfl
  · decide

/-- C7 amended: every emitted event carries the SUMMARY line built by
summaryOf: the title alone when the course is empty, otherwise the course
and title joined by the mojibake separator U+00E2 U+20AC U+201D surrounded
by spaces (not a plain dash). -/
theorem summary_line (now : String) (rec : Record) (ls : List String)
    (h : emitRecord now rec = .ok ls) (hne : ls ≠ []) :
    ("SUMMARY:" ++ summaryOf rec) ∈ ls := by
  rcases emitRecord_shape now rec ls h with rfl | ⟨tl, _, _, rfl⟩
  · exact absurd rfl hne
  · apply List.mem_append_left
    simp [evLines]

theorem summary_line_witness :
    emitRecord "T0" recCS = .ok csLines ∧ csLines ≠ []
      ∧ ("SUMMARY:" ++ summaryOf recCS) ∈ csLines :=
  ⟨rfl, by decide, summary_line "T0" recCS csLines rfl (by decide)⟩

/-- C2: a row whose non-empty start date cell does not match the expected
format makes strptime raise inside parse_date; main installs no handler,
so the error aborts the whole run instead of skipping the row.  The run
over the single malformed row produces the error outcome, not an output
without that row. -/
theorem malformed_date_aborts : runRows colsAll "T0" [rowBadDate] = .error () := rfl

theorem dtstamp_uniform_witness :
    runRows colsAll "T0" [rTen1, rTen2] = .ok tenOut
      ∧ tenOut.filter (fun l => hasPre "DTSTAMP:" l)
          = List.replicate (tenOut.count "BEGIN:VEVENT") ("DTSTAMP:" ++ "T0") :=
  ⟨rfl, dtstamp_uniform colsAll "T0" [rTen1, rTen2] tenOut rfl⟩

theorem transp_line_witness :
    processRow colsAll "T0" rC6 = .ok c6Lines ∧ c6Lines ≠ []
      ∧ c6Lines.filter (fun l => hasPre "TRANSP:" l)
          = [if colsAll.transp
                && ["true", "yes", "y", "1", "transparent", "free"].contains
                  (lower (strip (cellStr rC6.transp)))
             then "TRANSP:TRANSPARENT" else "TRANSP:OPAQUE"] :=
  ⟨rfl, by decide, transp_line colsAll rC6 "T0" c6Lines rfl (by decide)⟩
